import Mathlib

/-!
Verification development for the adaptive spatial-partitioning search engine
of this repository.  The Yelp provider client is embedded from
src/pipeline/foodware/places/yelp.py and the Tripadvisor client from
src/notebooks/utils/trip_hotels.py.  Network requests are modelled by a
provider oracle (a pure function from request parameters to the parsed
response), the unbounded while-loops and recursion are modelled with an
explicit fuel bound (a run that returns none did not reach any return
statement within the given number of requests), and the observable actions
of a run (HTTP requests, subdivision of a cell, delays) are recorded in an
event trace.
-/

/-- Modelled from the spec: a geographic point in longitude/latitude degrees
(spec section 3).  The concrete class lives in common/geometry.py, which is
not part of the sources; the Yelp client reads the fields lon and lat of
box.center and the Tripadvisor client reads lat and lon of box.center. -/
structure Point (α : Type) where
  lon : α
  lat : α
deriving DecidableEq

/-- Modelled from the spec: GeoBox, an axis-aligned rectangle in degrees
(spec section 3), mirroring the BoundingBox interface that
src/pipeline/foodware/places/yelp.py and src/notebooks/utils/trip_hotels.py
consume: fields min_x, max_x, min_y, max_y with x = longitude and
y = latitude, plus center, bottom_left, split_along_axes, split_into_squares
and intersects_with.  The invariant min <= max is a hypothesis of the
theorems that need it. -/
structure BoundingBox (α : Type) where
  min_x : α
  max_x : α
  min_y : α
  max_y : α
deriving DecidableEq

/-- Modelled from the spec: the derived center point of a GeoBox. -/
def BoundingBox.center {α : Type} [LinearOrderedField α] (b : BoundingBox α) : Point α :=
  ⟨(b.min_x + b.max_x) / 2, (b.min_y + b.max_y) / 2⟩

/-- Modelled from the spec: the bottom-left corner of a GeoBox, the point at
its westernmost longitude and southernmost latitude. -/
def BoundingBox.bottom_left {α : Type} (b : BoundingBox α) : Point α :=
  ⟨b.min_x, b.min_y⟩

/-- Modelled from the spec, section 4.1: split_along_axes(x_into, y_into)
partitions the box into an x_into times y_into grid of equal-sized
sub-boxes listed row by row. -/
def BoundingBox.split_along_axes {α : Type} [LinearOrderedField α]
    (b : BoundingBox α) (x_into y_into : ℕ) : List (BoundingBox α) :=
  let w := (b.max_x - b.min_x) / (x_into : α)
  let h := (b.max_y - b.min_y) / (y_into : α)
  ((List.range y_into).map (fun j =>
    (List.range x_into).map (fun i =>
      ⟨b.min_x + (i : α) * w, b.min_x + ((i : α) + 1) * w,
       b.min_y + (j : α) * h, b.min_y + ((j : α) + 1) * h⟩))).flatten

/-- Modelled from the spec, section 4.1: split_into_squares(size) tiles the
box with cells of the given side length; the final row and column are
clipped to the box, so they may be smaller than size. -/
def BoundingBox.split_into_squares {α : Type} [LinearOrderedField α] [FloorRing α]
    (b : BoundingBox α) (size_in_degrees : α) : List (BoundingBox α) :=
  let nx := ⌈(b.max_x - b.min_x) / size_in_degrees⌉₊
  let ny := ⌈(b.max_y - b.min_y) / size_in_degrees⌉₊
  ((List.range ny).map (fun j =>
    (List.range nx).map (fun i =>
      ⟨b.min_x + (i : α) * size_in_degrees,
       min (b.min_x + ((i : α) + 1) * size_in_degrees) b.max_x,
       b.min_y + (j : α) * size_in_degrees,
       min (b.min_y + ((j : α) + 1) * size_in_degrees) b.max_y⟩))).flatten

/-- Modelled from the spec: a boundary is a polygon or multi-polygon used
only for intersection filtering (spec section 3).  It is modelled here as a
finite union of axis-aligned rectangles, a restricted multi-polygon that
suffices for every claim about the search logic. -/
abbrev Boundary (α : Type) : Type := List (BoundingBox α)

/-- Modelled from the spec, section 4.1: intersects returns true exactly when
the box shares area (an overlap of positive width and height) with some part
of the boundary. -/
def BoundingBox.intersects_with {α : Type} [LinearOrderedField α]
    (b : BoundingBox α) (geo : Boundary α) : Bool :=
  geo.any (fun r =>
    decide (b.min_x < r.max_x) && decide (r.min_x < b.max_x) &&
    decide (b.min_y < r.max_y) && decide (r.min_y < b.max_y))

/-- Modelled from the spec: BoundingBox.from_polygon, the bounding box of a
boundary (the componentwise minima and maxima of its parts). -/
def Boundary.bounds {α : Type} [LinearOrderedField α] : Boundary α → BoundingBox α
  | [] => ⟨0, 0, 0, 0⟩
  | r :: rs => rs.foldl
      (fun acc s => ⟨min acc.min_x s.min_x, max acc.max_x s.max_x,
                     min acc.min_y s.min_y, max acc.max_y s.max_y⟩) r

namespace YelpClient

/-- Constant from src/pipeline/foodware/places/yelp.py line 63. -/
def MAX_NUM_PAGE_RESULTS : ℕ := 50

/-- Constant from src/pipeline/foodware/places/yelp.py line 68. -/
def MAX_NUM_QUERY_RESULTS : ℕ := 1000

/-- Constant from src/pipeline/foodware/places/yelp.py line 72. -/
def MAX_SEARCH_RADIUS_IN_METERS : ℕ := 40000

/-- The values of the YelpPOICategories enumeration, in declaration order
(src/pipeline/foodware/places/yelp.py lines 22 to 57). -/
def yelp_poi_category_values : List String :=
  ["bars", "restaurants", "arts", "airports", "apartments", "bikesharing",
   "busstations", "civiccenter", "communitycenters", "collegeuniv",
   "condominiums", "drugstores", "elementaryschools", "grocery", "hospitals",
   "hotels", "highschools", "libraries", "medcenters", "metrostations",
   "sharedofficespaces", "parks", "postoffices", "pharmacy", "preschools",
   "recyclingcenter", "resorts", "housingcooperatives", "trainstations",
   "zoos"]

/-- The categories request parameter, the comma join of all category values
(yelp.py line 151). -/
def categories : String := String.intercalate "," yelp_poi_category_values

/-- The client state produced by YelpClient initialization: the API key read
from the environment (yelp.py lines 77 to 98). -/
structure Client where
  api_key : String
deriving DecidableEq

/-- YelpClient initialization (yelp.py lines 77 to 98): reads the
YELP_API_KEY environment variable and fails with a RuntimeError when it is
absent. -/
def init (env : String → Option String) : Except String Client :=
  match env "YELP_API_KEY" with
  | some key => Except.ok ⟨key⟩
  | none => Except.error
      "Failed to initialize YelpClient. Missing expected environment variable YELP_API_KEY."

/-- The query parameters of one Yelp business-search request
(yelp.py lines 161 to 168). -/
structure YelpParams where
  radius : ℤ
  categories : String
  longitude : ℚ
  latitude : ℚ
  limit : ℕ
  offset : ℕ
deriving DecidableEq

/-- The parameters built for page page_idx of the query for a cell
(yelp.py lines 161 to 168): radius is the ceiling of the search radius,
the center of the cell is the query point, the page size is
MAX_NUM_PAGE_RESULTS and the offset advances by the page size. -/
def search_params (box : BoundingBox ℚ) (search_radius : ℚ) (page_idx : ℕ) : YelpParams :=
  ⟨⌈search_radius⌉, categories, (BoundingBox.center box).lon,
   (BoundingBox.center box).lat, MAX_NUM_PAGE_RESULTS,
   page_idx * MAX_NUM_PAGE_RESULTS⟩

/-- The provider oracle response to one request: either a non-success HTTP
status with the parsed error body (yelp.py line 178), or a success carrying
the reported total and the page of businesses (yelp.py lines 189 and 200). -/
inductive YelpResponse where
  | err (body : String)
  | ok (total : ℕ) (businesses : List ℕ)

/-- An error record, stored as a dict with the originating params and the
parsed body (yelp.py line 184). -/
structure YelpError where
  params : YelpParams
  error : String
deriving DecidableEq

/-- Observable actions of a run: an HTTP request with its parameters and
authorization header (yelp.py lines 161 to 174), a cell subdivision
(yelp.py line 190), and a delay between page requests (yelp.py line 215). -/
inductive YelpEvent where
  | query (params : YelpParams) (auth : String)
  | sleep (seconds : ℚ)
  | split (box : BoundingBox ℚ)
deriving DecidableEq

/-- True exactly on subdivision events. -/
def YelpEvent.is_split : YelpEvent → Bool
  | .split _ => true
  | _ => false

/-- True exactly on request events. -/
def YelpEvent.is_query : YelpEvent → Bool
  | .query _ _ => true
  | _ => false

/-- The for-loop over sub-cells inside the subdivision branch
(yelp.py lines 191 to 196): each sub-cell is searched in order, its places
and errors are extended onto the accumulators; a sub-cell whose search never
returns (none) leaves the loop stuck, so later sub-cells are not reached. -/
def find_children {π ε τ : Type}
    (fp : BoundingBox ℚ → Option (List π × List ε) × List τ) :
    List (BoundingBox ℚ) → List π → List ε →
    Option (List π × List ε) × List τ
  | [], pois, errors => (some (pois, errors), [])
  | sub :: rest, pois, errors =>
    match fp sub with
    | (none, tr) => (none, tr)
    | (some (sub_pois, sub_errors), tr) =>
      let r := find_children fp rest (pois ++ sub_pois) (errors ++ sub_errors)
      (r.1, tr ++ r.2)

/-- YelpClient.find_places_in_bounding_box (yelp.py lines 132 to 215),
as a fueled interpreter of the while-loop.  Each iteration issues one
request for the current page; on a transport error the error is recorded
with its params and the accumulated places are returned; when the reported
total strictly exceeds MAX_NUM_QUERY_RESULTS the box is split with
split_along_axes(2, 2) and each sub-cell is searched recursively with a
quarter of the search radius; otherwise the page of businesses is appended,
and the loop either returns on the last page (page_idx equal to
num_pages - 1 over the integers) or sleeps half a second and continues with
the next page index.  Fuel counts issued requests; a result of none means no
return statement was reached within the fuel bound. -/
def find_places_in_bounding_box (client : Client) (P : YelpParams → YelpResponse) :
    ℕ → BoundingBox ℚ → ℚ → ℕ → List ℕ → List YelpError →
    Option (List ℕ × List YelpError) × List YelpEvent
  | 0, _, _, _, _, _ => (none, [])
  | fuel+1, box, search_radius, page_idx, pois, errors =>
    let params := search_params box search_radius page_idx
    let ev := YelpEvent.query params ("Bearer " ++ client.api_key)
    match P params with
    | .err body =>
      (some (pois, errors ++ [⟨params, body⟩]), [ev])
    | .ok total businesses =>
      if total > MAX_NUM_QUERY_RESULTS then
        let r := find_children
          (fun sub => find_places_in_bounding_box client P fuel sub (search_radius / 4) 0 [] [])
          (box.split_along_axes 2 2) pois errors
        (r.1, ev :: YelpEvent.split box :: r.2)
      else
        let pois2 := pois ++ businesses
        let num_pages := total / MAX_NUM_PAGE_RESULTS +
          (if total % MAX_NUM_PAGE_RESULTS > 0 then 1 else 0)
        if (page_idx : ℤ) = (num_pages : ℤ) - 1 then
          (some (pois2, errors), [ev])
        else
          let r := find_places_in_bounding_box client P fuel box search_radius
            (page_idx + 1) pois2 errors
          (r.1, ev :: YelpEvent.sleep (1/2) :: r.2)

/-- The terminal artifact of a run (modelled from the spec, section 3, and
yelp.py line 303): the raw records, the cleaned records and the errors. -/
structure PlacesSearchResult where
  raw : List ℕ
  cleaned : List ℕ
  errors : List YelpError
deriving DecidableEq

/-- The per-cell loop of run_nearby_search (yelp.py lines 289 to 298): each
grid cell is searched only if it intersects the boundary, and places and
errors from the searched cells are accumulated in order. -/
def process_cells (geo : Boundary ℚ)
    (fp : BoundingBox ℚ → Option (List ℕ × List YelpError) × List YelpEvent) :
    List (BoundingBox ℚ) → List ℕ → List YelpError →
    Option (List ℕ × List YelpError) × List YelpEvent
  | [], pois, errors => (some (pois, errors), [])
  | cell :: rest, pois, errors =>
    if cell.intersects_with geo then
      match fp cell with
      | (none, tr) => (none, tr)
      | (some (cell_pois, cell_errors), tr) =>
        let r := process_cells geo fp rest (pois ++ cell_pois) (errors ++ cell_errors)
        (r.1, tr ++ r.2)
    else
      process_cells geo fp rest pois errors

/-- The partition-planning steps of run_nearby_search (yelp.py lines
267 to 286): the maximum cell side in meters is sqrt_two times the maximum
search radius, it is converted to degrees at the bounding box bottom-left
point by convert_meters_to_degrees (a conversion returning a latitude-degree
and a longitude-degree length, modelled as a parameter because
common/geometry.py is not among the sources), the smaller of the two
conversions is taken as the side, and the box is tiled with
split_into_squares.  sqrt_two stands for the value the source computes as
2 ** 0.5. -/
def plan_cells {α : Type} [LinearOrderedField α] [FloorRing α]
    (sqrt_two : α) (convert_meters_to_degrees : α → Point α → α × α)
    (bbox : BoundingBox α) : List (BoundingBox α) :=
  let max_side_meters := sqrt_two * (MAX_SEARCH_RADIUS_IN_METERS : α)
  let dl := convert_meters_to_degrees max_side_meters bbox.bottom_left
  let max_side_degrees := min dl.1 dl.2
  bbox.split_into_squares max_side_degrees

/-- YelpClient.run_nearby_search (yelp.py lines 217 to 303): plans the grid
over the bounding box of the boundary, searches every cell that intersects
the boundary with the full maximum search radius, and assembles the
PlacesSearchResult from the raw places, the cleaned places (clean_places
lives in the missing module foodware/places/common.py and is modelled as a
parameter) and the errors. -/
def run_nearby_search (client : Client) (P : YelpParams → YelpResponse)
    (sqrt_two : ℚ) (convert_meters_to_degrees : ℚ → Point ℚ → ℚ × ℚ)
    (clean_places : List ℕ → Boundary ℚ → List ℕ)
    (fuel : ℕ) (geo : Boundary ℚ) : Option PlacesSearchResult × List YelpEvent :=
  let bbox := Boundary.bounds geo
  let cells := plan_cells sqrt_two convert_meters_to_degrees bbox
  let r := process_cells geo
    (fun cell => find_places_in_bounding_box client P fuel cell
      ((MAX_SEARCH_RADIUS_IN_METERS : ℕ) : ℚ) 0 [] [])
    cells [] []
  match r.1 with
  | none => (none, r.2)
  | some (pois, errors) => (some ⟨pois, clean_places pois geo, errors⟩, r.2)

end YelpClient

namespace TripadvisorCity

/-- Constant from src/notebooks/utils/trip_hotels.py line 64. -/
def MAX_NUM_RESULTS_PER_REQUEST : ℕ := 10

/-- Constant from src/notebooks/utils/trip_hotels.py line 60. -/
def API_TRIP_NEARBY_SEARCH : String :=
  "https://api.content.tripadvisor.com/api/v1/location/nearby_search?"

/-- TripadvisorCity.build_tripadvisor_nearby_api (trip_hotels.py lines
148 to 159): the nearby-search URL for the given point, radius and radius
unit argument (the caller passes the per-request limit in that position). -/
def build_tripadvisor_nearby_api (api_key lat_long : String) (radius : ℤ)
    (radius_unit : ℕ) : String :=
  API_TRIP_NEARBY_SEARCH ++ "latLong=" ++ lat_long ++ "&key=" ++ api_key ++
    "&category=hotels&radius=" ++ toString radius ++ "&radiusUnit=" ++
    toString radius_unit ++ "&language=en"

/-- The URL requested by each iteration of the while-loop in
TripadvisorCity.find_places_in_bounding_box (trip_hotels.py lines
196 to 199): the box center as lat,lon, the ceiling of the search radius,
and the per-request limit passed as the radius unit. -/
def nearby_url (api_key : String) (box : BoundingBox ℚ) (search_radius : ℚ) : String :=
  build_tripadvisor_nearby_api api_key
    (toString (BoundingBox.center box).lat ++ "," ++ toString (BoundingBox.center box).lon)
    ⌈search_radius⌉ MAX_NUM_RESULTS_PER_REQUEST

/-- TripadvisorCity.find_places_in_bounding_box (trip_hotels.py lines
174 to 217) as a fueled interpreter of the while-loop.  The provider oracle
maps a request URL to the data list of the successful JSON response.  When
the response count reaches the per-request limit the box is split with
split_along_axes(2, 2) and each sub-cell is searched recursively with half
the search radius; when the count is at least one the data is appended to
the accumulator and the loop repeats with no exit; when the count is zero
the loop repeats unchanged.  The trace records the requested URLs; none
means no return statement was reached within the fuel bound. -/
def find_places_in_bounding_box (api_key : String) (P : String → List ℕ) :
    ℕ → BoundingBox ℚ → ℚ → List ℕ → List String →
    Option (List ℕ × List String) × List String
  | 0, _, _, _, _ => (none, [])
  | fuel+1, box, search_radius, hotel_lst, errors =>
    let url := nearby_url api_key box search_radius
    let data := P url
    let reponse_hotel_count := data.length
    if reponse_hotel_count ≥ MAX_NUM_RESULTS_PER_REQUEST then
      let r := YelpClient.find_children
        (fun sub => find_places_in_bounding_box api_key P fuel sub (search_radius / 2) [] [])
        (box.split_along_axes 2 2) hotel_lst errors
      (r.1, url :: r.2)
    else if reponse_hotel_count ≥ 1 then
      let r := find_places_in_bounding_box api_key P fuel box search_radius
        (hotel_lst ++ data) errors
      (r.1, url :: r.2)
    else
      let r := find_places_in_bounding_box api_key P fuel box search_radius
        hotel_lst errors
      (r.1, url :: r.2)

end TripadvisorCity


namespace YelpClient

/-- The number of pages the loop computes for a reported total
(yelp.py lines 205 to 207): floor division by the page size plus one when a
remainder exists. -/
def num_pages (total : ℕ) : ℕ :=
  total / MAX_NUM_PAGE_RESULTS +
    (if total % MAX_NUM_PAGE_RESULTS > 0 then 1 else 0)

/-- The places accumulated by paginating n pages starting at page j, when
the provider returns bs k as the businesses of page k. -/
def expected_pages (bs : ℕ → List ℕ) : ℕ → ℕ → List ℕ
  | _, 0 => []
  | j, n+1 => bs j ++ expected_pages bs (j+1) n

/-- The event trace of paginating n pages starting at page j: one request
per page with a half-second sleep between successive requests and no other
events. -/
def expected_trace (client : Client) (box : BoundingBox ℚ) (search_radius : ℚ) :
    ℕ → ℕ → List YelpEvent
  | _, 0 => []
  | j, 1 => [YelpEvent.query (search_params box search_radius j)
      ("Bearer " ++ client.api_key)]
  | j, n+2 => YelpEvent.query (search_params box search_radius j)
      ("Bearer " ++ client.api_key) :: YelpEvent.sleep (1/2) ::
      expected_trace client box search_radius (j+1) (n+1)

end YelpClient

namespace YelpClient

theorem expected_trace_no_split (client : Client) (box : BoundingBox ℚ)
    (search_radius : ℚ) :
    ∀ n j, (expected_trace client box search_radius j n).all
      (fun e => !e.is_split) = true := by
  intro n
  induction n using Nat.strong_induction_on with
  | _ n ih =>
    intro j
    match n with
    | 0 => rfl
    | 1 => rfl
    | n+2 =>
      simp only [expected_trace, List.all_cons]
      exact ih (n+1) (by omega) (j+1)

theorem expected_trace_query_count (client : Client) (box : BoundingBox ℚ)
    (search_radius : ℚ) :
    ∀ n j, (expected_trace client box search_radius j n).countP
      (fun e => e.is_query) = n := by
  intro n
  induction n using Nat.strong_induction_on with
  | _ n ih =>
    intro j
    match n with
    | 0 => rfl
    | 1 => rfl
    | n+2 =>
      simp only [expected_trace, List.countP_cons]
      rw [ih (n+1) (by omega) (j+1)]
      rfl

theorem find_children_none {π ε τ : Type}
    (fp : BoundingBox ℚ → Option (List π × List ε) × List τ)
    (h : ∀ b, (fp b).1 = none) :
    ∀ subs (pois : List π) (errors : List ε), subs ≠ [] →
      (find_children fp subs pois errors).1 = none := by
  intro subs pois errors hne
  match subs with
  | [] => exact absurd rfl hne
  | sub :: rest =>
    have hfp := h sub
    simp only [find_children]
    rcases hr : fp sub with ⟨o, tr⟩
    rw [hr] at hfp
    simp at hfp
    subst hfp
    rfl

theorem split_along_axes_length {α : Type} [LinearOrderedField α]
    (b : BoundingBox α) : (b.split_along_axes 2 2).length = 4 := by
  simp [BoundingBox.split_along_axes, List.range_succ]

theorem split_along_axes_ne_nil {α : Type} [LinearOrderedField α]
    (b : BoundingBox α) : b.split_along_axes 2 2 ≠ [] := by
  intro h
  have := split_along_axes_length b
  rw [h] at this
  simp at this

/-- Helper: the fully paginated run of the page loop, from page j with d+1
pages remaining, under a provider that consistently reports total t with at
most the per-query cap. -/
theorem paginate_from (client : Client) (P : YelpParams → YelpResponse)
    (box : BoundingBox ℚ) (search_radius : ℚ) (t : ℕ) (bs : ℕ → List ℕ)
    (hc : ∀ k, P (search_params box search_radius k) = .ok t (bs k))
    (hcap : t ≤ MAX_NUM_QUERY_RESULTS) :
    ∀ d j pois errors fuel, j + d + 1 = num_pages t → d < fuel →
      find_places_in_bounding_box client P fuel box search_radius j pois errors =
        (some (pois ++ expected_pages bs j (d+1), errors),
         expected_trace client box search_radius j (d+1)) := by
  intro d
  induction d with
  | zero =>
    intro j pois errors fuel hj hfuel
    match fuel, hfuel with
    | fuel+1, _ =>
      have hN : j + 0 + 1 = t / MAX_NUM_PAGE_RESULTS +
          (if t % MAX_NUM_PAGE_RESULTS > 0 then 1 else 0) := by
        simpa only [num_pages] using hj
      simp only [find_places_in_bounding_box, hc j]
      rw [if_neg (by omega)]
      rw [if_pos (by
        generalize t / MAX_NUM_PAGE_RESULTS +
          (if t % MAX_NUM_PAGE_RESULTS > 0 then 1 else 0) = N at hN
        omega)]
      simp [expected_pages, expected_trace]
  | succ d ih =>
    intro j pois errors fuel hj hfuel
    match fuel, hfuel with
    | fuel+1, hfuel =>
      have hN : j + (d + 1) + 1 = t / MAX_NUM_PAGE_RESULTS +
          (if t % MAX_NUM_PAGE_RESULTS > 0 then 1 else 0) := by
        simpa only [num_pages] using hj
      simp only [find_places_in_bounding_box, hc j]
      rw [if_neg (by omega)]
      rw [if_neg (by
        generalize t / MAX_NUM_PAGE_RESULTS +
          (if t % MAX_NUM_PAGE_RESULTS > 0 then 1 else 0) = N at hN
        omega)]
      rw [ih (j+1) (pois ++ bs j) errors fuel (by omega) (by omega)]
      simp only [expected_pages, expected_trace, List.append_assoc]

end YelpClient

/-- C8: if the YELP_API_KEY environment variable is missing, constructing
the provider client fails with an error, so no Client value exists for such
a run; since every request-issuing function of the embedding takes a Client
produced by init, no search request is ever sent in a run with missing
credentials. -/
theorem claim_C8_missing_credentials (env : String → Option String)
    (h : env "YELP_API_KEY" = none) :
    YelpClient.init env = Except.error
      "Failed to initialize YelpClient. Missing expected environment variable YELP_API_KEY."
    ∧ ∀ c : YelpClient.Client, YelpClient.init env ≠ Except.ok c := by
  constructor
  · simp [YelpClient.init, h]
  · intro c
    simp [YelpClient.init, h]

theorem claim_C8_witness :
    YelpClient.init (fun _ => none) = Except.error
      "Failed to initialize YelpClient. Missing expected environment variable YELP_API_KEY." :=
  (claim_C8_missing_credentials (fun _ => none) rfl).1

/-- C10: for a cell whose successful queries report a total of zero, the
page loop of YelpClient.find_places_in_bounding_box never reaches a return
statement: num_pages is zero, the only successful exit requires the page
index to equal num_pages - 1 = -1 over the integers, which no natural page
index satisfies, so for every fuel bound the run exhausts its fuel (result
none) instead of returning, re-issuing the query indefinitely. -/
theorem claim_C10_zero_total_loops_forever (client : YelpClient.Client)
    (P : YelpClient.YelpParams → YelpClient.YelpResponse)
    (box : BoundingBox ℚ) (search_radius : ℚ)
    (hP : ∀ k, ∃ bs, P (YelpClient.search_params box search_radius k) =
      YelpClient.YelpResponse.ok 0 bs) :
    ∀ fuel page_idx pois errors,
      (YelpClient.find_places_in_bounding_box client P fuel box search_radius
        page_idx pois errors).1 = none := by
  intro fuel
  induction fuel with
  | zero =>
    intro page_idx pois errors
    rfl
  | succ fuel ih =>
    intro page_idx pois errors
    obtain ⟨bs, hbs⟩ := hP page_idx
    simp only [YelpClient.find_places_in_bounding_box, hbs]
    rw [if_neg (by norm_num [YelpClient.MAX_NUM_QUERY_RESULTS])]
    rw [if_neg (by
      simp only [Nat.zero_div, Nat.zero_mod, gt_iff_lt, lt_self_iff_false,
        if_false, Nat.add_zero, Nat.cast_zero, zero_sub]
      omega)]
    exact ih (page_idx + 1) (pois ++ bs) errors

theorem claim_C10_witness :
    (YelpClient.find_places_in_bounding_box ⟨"k"⟩
      (fun _ => YelpClient.YelpResponse.ok 0 []) 7 ⟨0, 2, 0, 2⟩ 40000 0 [] []).1 = none :=
  claim_C10_zero_total_loops_forever ⟨"k"⟩ _ ⟨0, 2, 0, 2⟩ 40000
    (fun _ => ⟨[], rfl⟩) 7 0 [] []

/-- C3: the claim asserts a termination guard that the code does not have.
Supporting theorem for the code bug: the recursion of
YelpClient.find_places_in_bounding_box has no minimum-cell-side or
maximum-depth floor; under a provider that reports a total above the
per-query cap for every query, no fuel bound suffices for the search of any
cell to reach a return statement, so the subdivision recursion continues
without bound and no unresolvable-density SearchError is ever produced. -/
theorem claim_C3_no_termination_guard (client : YelpClient.Client)
    (P : YelpClient.YelpParams → YelpClient.YelpResponse)
    (hP : ∀ params, ∃ t bs, P params = YelpClient.YelpResponse.ok t bs ∧
      YelpClient.MAX_NUM_QUERY_RESULTS < t) :
    ∀ fuel box search_radius page_idx pois errors,
      (YelpClient.find_places_in_bounding_box client P fuel box search_radius
        page_idx pois errors).1 = none := by
  intro fuel
  induction fuel with
  | zero =>
    intro box search_radius page_idx pois errors
    rfl
  | succ fuel ih =>
    intro box search_radius page_idx pois errors
    obtain ⟨t, bs, hbs, ht⟩ := hP (YelpClient.search_params box search_radius page_idx)
    simp only [YelpClient.find_places_in_bounding_box, hbs]
    rw [if_pos ht]
    exact YelpClient.find_children_none _
      (fun b => ih b (search_radius / 4) 0 [] []) _ pois errors
      (YelpClient.split_along_axes_ne_nil box)

theorem claim_C3_witness :
    (YelpClient.find_places_in_bounding_box ⟨"k"⟩
      (fun _ => YelpClient.YelpResponse.ok 2000 []) 3 ⟨0, 2, 0, 2⟩ 40000 0 [] []).1 = none :=
  claim_C3_no_termination_guard ⟨"k"⟩ _
    (fun _ => ⟨2000, [], rfl, by norm_num [YelpClient.MAX_NUM_QUERY_RESULTS]⟩)
    3 ⟨0, 2, 0, 2⟩ 40000 0 [] []

/-- C9: for a cell whose successful Tripadvisor nearby search returns fewer
results than the per-request limit, the while-loop of
TripadvisorCity.find_places_in_bounding_box never reaches a return
statement: for every fuel bound the run returns none; moreover whenever the
count is at least one, a loop iteration re-issues the same URL and appends
the same data to the accumulator once more. -/
theorem claim_C9_under_limit_never_returns (api_key : String)
    (P : String → List ℕ) (box : BoundingBox ℚ) (search_radius : ℚ)
    (hc : (P (TripadvisorCity.nearby_url api_key box search_radius)).length <
      TripadvisorCity.MAX_NUM_RESULTS_PER_REQUEST) :
    (∀ fuel hotel_lst errors,
      (TripadvisorCity.find_places_in_bounding_box api_key P fuel box
        search_radius hotel_lst errors).1 = none)
    ∧ (∀ fuel hotel_lst errors,
        1 ≤ (P (TripadvisorCity.nearby_url api_key box search_radius)).length →
        TripadvisorCity.find_places_in_bounding_box api_key P (fuel+1) box
          search_radius hotel_lst errors =
          ((TripadvisorCity.find_places_in_bounding_box api_key P fuel box
              search_radius
              (hotel_lst ++ P (TripadvisorCity.nearby_url api_key box search_radius))
              errors).1,
           TripadvisorCity.nearby_url api_key box search_radius ::
             (TripadvisorCity.find_places_in_bounding_box api_key P fuel box
               search_radius
               (hotel_lst ++ P (TripadvisorCity.nearby_url api_key box search_radius))
               errors).2)) := by
  constructor
  · intro fuel
    induction fuel with
    | zero =>
      intro hotel_lst errors
      rfl
    | succ fuel ih =>
      intro hotel_lst errors
      simp only [TripadvisorCity.find_places_in_bounding_box]
      rw [if_neg (by omega)]
      split
      · exact ih _ _
      · exact ih _ _
  · intro fuel hotel_lst errors h1
    simp only [TripadvisorCity.find_places_in_bounding_box]
    rw [if_neg (by omega), if_pos (by omega)]

theorem claim_C9_witness :
    (TripadvisorCity.find_places_in_bounding_box "k" (fun _ => [7]) 4
      ⟨0, 2, 0, 2⟩ 100 [] []).1 = none :=
  (claim_C9_under_limit_never_returns "k" _ ⟨0, 2, 0, 2⟩ 100
    (by norm_num [TripadvisorCity.MAX_NUM_RESULTS_PER_REQUEST])).1 4 [] []

/-- C1 (amended): on a successful response for the current page, the loop
issues the request for that page and then subdivides the cell exactly when
the reported total strictly exceeds MAX_NUM_QUERY_RESULTS; when the total
is at the cap or below it, the cell is paginated (the event following the
request, if any, is never a subdivision of the cell). -/
theorem claim_C1_subdivide_iff_strictly_above_cap
    (client : YelpClient.Client) (P : YelpClient.YelpParams → YelpClient.YelpResponse)
    (fuel : ℕ) (box : BoundingBox ℚ) (search_radius : ℚ) (page_idx : ℕ)
    (pois : List ℕ) (errors : List YelpClient.YelpError) (t : ℕ) (bs : List ℕ)
    (h : P (YelpClient.search_params box search_radius page_idx) =
      YelpClient.YelpResponse.ok t bs) :
    ((YelpClient.find_places_in_bounding_box client P (fuel+1) box search_radius
        page_idx pois errors).2.head? =
      some (YelpClient.YelpEvent.query
        (YelpClient.search_params box search_radius page_idx)
        ("Bearer " ++ client.api_key)))
    ∧ (YelpClient.MAX_NUM_QUERY_RESULTS < t ↔
        (YelpClient.find_places_in_bounding_box client P (fuel+1) box search_radius
          page_idx pois errors).2.tail.head? =
          some (YelpClient.YelpEvent.split box)) := by
  simp only [YelpClient.find_places_in_bounding_box, h]
  by_cases ht : YelpClient.MAX_NUM_QUERY_RESULTS < t
  · rw [if_pos ht]
    exact ⟨rfl, ⟨fun _ => rfl, fun _ => ht⟩⟩
  · rw [if_neg ht]
    constructor
    · split <;> split <;> rfl
    · constructor
      · intro hcontra
        exact absurd hcontra ht
      · intro htail
        exfalso
        revert htail
        split <;> split <;> simp

theorem claim_C1_witness :
    ((YelpClient.find_places_in_bounding_box ⟨"k"⟩
        (fun _ => YelpClient.YelpResponse.ok 500 []) 1 ⟨0, 2, 0, 2⟩ 40000 0 [] []).2.head? =
      some (YelpClient.YelpEvent.query
        (YelpClient.search_params ⟨0, 2, 0, 2⟩ 40000 0) ("Bearer " ++ "k")))
    ∧ (YelpClient.MAX_NUM_QUERY_RESULTS < 500 ↔
        (YelpClient.find_places_in_bounding_box ⟨"k"⟩
          (fun _ => YelpClient.YelpResponse.ok 500 []) 1 ⟨0, 2, 0, 2⟩ 40000 0 [] []).2.tail.head? =
          some (YelpClient.YelpEvent.split ⟨0, 2, 0, 2⟩)) :=
  claim_C1_subdivide_iff_strictly_above_cap ⟨"k"⟩ _ 0 ⟨0, 2, 0, 2⟩ 40000 0 [] [] 500 [] rfl

/-- C1 counterexample: a provider reports a total of exactly 1000 for every
page of a cell, which is at (hence at or above) the per-query cap; the run
fully paginates the cell through twenty page requests, returns successfully
and never subdivides, contradicting the claim that a reported total at or
above the cap triggers subdivision. -/
theorem claim_C1_counterexample :
    YelpClient.MAX_NUM_QUERY_RESULTS ≤ 1000
    ∧ (YelpClient.find_places_in_bounding_box ⟨"k"⟩
        (fun _ => YelpClient.YelpResponse.ok 1000 []) 20
        ⟨0, 2, 0, 2⟩ 40000 0 [] []).1.isSome = true
    ∧ (YelpClient.find_places_in_bounding_box ⟨"k"⟩
        (fun _ => YelpClient.YelpResponse.ok 1000 []) 20
        ⟨0, 2, 0, 2⟩ 40000 0 [] []).2.all (fun e => !e.is_split) = true
    ∧ (YelpClient.find_places_in_bounding_box ⟨"k"⟩
        (fun _ => YelpClient.YelpResponse.ok 1000 []) 20
        ⟨0, 2, 0, 2⟩ 40000 0 [] []).2.countP (fun e => e.is_query) = 20 := by
  have h := YelpClient.paginate_from ⟨"k"⟩
    (fun _ => YelpClient.YelpResponse.ok 1000 []) ⟨0, 2, 0, 2⟩ 40000 1000
    (fun _ => []) (fun _ => rfl)
    (by norm_num [YelpClient.MAX_NUM_QUERY_RESULTS])
    19 0 [] [] 20
    (by norm_num [YelpClient.num_pages, YelpClient.MAX_NUM_PAGE_RESULTS])
    (by norm_num)
  rw [h]
  refine ⟨by norm_num [YelpClient.MAX_NUM_QUERY_RESULTS], rfl, ?_, ?_⟩
  · exact YelpClient.expected_trace_no_split ⟨"k"⟩ ⟨0, 2, 0, 2⟩ 40000 20 0
  · exact YelpClient.expected_trace_query_count ⟨"k"⟩ ⟨0, 2, 0, 2⟩ 40000 20 0

/-- C2 (amended): whenever a cell is subdivided it is split into a 2 by 2
grid via split_along_axes(2, 2) in both provider integrations, and each of
the four child cells is recursively searched; the Yelp client searches each
child with a quarter of the parent search radius, while the Tripadvisor
client searches each child with half of the parent search radius. -/
theorem claim_C2_subdivision_grid_and_radius :
    (∀ (client : YelpClient.Client)
        (P : YelpClient.YelpParams → YelpClient.YelpResponse)
        (fuel : ℕ) (box : BoundingBox ℚ) (search_radius : ℚ) (page_idx : ℕ)
        (pois : List ℕ) (errors : List YelpClient.YelpError) (t : ℕ) (bs : List ℕ),
      P (YelpClient.search_params box search_radius page_idx) =
        YelpClient.YelpResponse.ok t bs →
      t > YelpClient.MAX_NUM_QUERY_RESULTS →
      YelpClient.find_places_in_bounding_box client P (fuel+1) box search_radius
          page_idx pois errors =
        ((YelpClient.find_children
            (fun sub => YelpClient.find_places_in_bounding_box client P fuel sub
              (search_radius / 4) 0 [] [])
            (box.split_along_axes 2 2) pois errors).1,
         YelpClient.YelpEvent.query
             (YelpClient.search_params box search_radius page_idx)
             ("Bearer " ++ client.api_key) ::
           YelpClient.YelpEvent.split box ::
           (YelpClient.find_children
             (fun sub => YelpClient.find_places_in_bounding_box client P fuel sub
               (search_radius / 4) 0 [] [])
             (box.split_along_axes 2 2) pois errors).2))
    ∧ (∀ (api_key : String) (P : String → List ℕ) (fuel : ℕ)
        (box : BoundingBox ℚ) (search_radius : ℚ)
        (hotel_lst : List ℕ) (errors : List String),
      (P (TripadvisorCity.nearby_url api_key box search_radius)).length ≥
        TripadvisorCity.MAX_NUM_RESULTS_PER_REQUEST →
      TripadvisorCity.find_places_in_bounding_box api_key P (fuel+1) box
          search_radius hotel_lst errors =
        ((YelpClient.find_children
            (fun sub => TripadvisorCity.find_places_in_bounding_box api_key P fuel
              sub (search_radius / 2) [] [])
            (box.split_along_axes 2 2) hotel_lst errors).1,
         TripadvisorCity.nearby_url api_key box search_radius ::
           (YelpClient.find_children
             (fun sub => TripadvisorCity.find_places_in_bounding_box api_key P fuel
               sub (search_radius / 2) [] [])
             (box.split_along_axes 2 2) hotel_lst errors).2)) := by
  constructor
  · intro client P fuel box search_radius page_idx pois errors t bs h ht
    simp only [YelpClient.find_places_in_bounding_box, h]
    rw [if_pos ht]
  · intro api_key P fuel box search_radius hotel_lst errors h
    simp only [TripadvisorCity.find_places_in_bounding_box]
    rw [if_pos h]

theorem claim_C2_witness :
    YelpClient.find_places_in_bounding_box ⟨"k"⟩
        (fun _ => YelpClient.YelpResponse.ok 2000 []) 1 ⟨0, 2, 0, 2⟩ 40000 0 [] [] =
      ((YelpClient.find_children
          (fun sub => YelpClient.find_places_in_bounding_box ⟨"k"⟩
            (fun _ => YelpClient.YelpResponse.ok 2000 []) 0 sub (40000 / 4) 0 [] [])
          ((⟨0, 2, 0, 2⟩ : BoundingBox ℚ).split_along_axes 2 2) [] []).1,
       YelpClient.YelpEvent.query
           (YelpClient.search_params ⟨0, 2, 0, 2⟩ 40000 0) ("Bearer " ++ "k") ::
         YelpClient.YelpEvent.split ⟨0, 2, 0, 2⟩ ::
         (YelpClient.find_children
           (fun sub => YelpClient.find_places_in_bounding_box ⟨"k"⟩
             (fun _ => YelpClient.YelpResponse.ok 2000 []) 0 sub (40000 / 4) 0 [] [])
           ((⟨0, 2, 0, 2⟩ : BoundingBox ℚ).split_along_axes 2 2) [] []).2) :=
  claim_C2_subdivision_grid_and_radius.1 ⟨"k"⟩ _ 0 ⟨0, 2, 0, 2⟩ 40000 0 [] [] 2000 []
    rfl (by norm_num [YelpClient.MAX_NUM_QUERY_RESULTS])

/-- C2 counterexample: a Yelp cell searched with radius 40000 reports a
total of 2000 and is subdivided; the four child queries are issued with
radius parameter 10000 (a quarter of the parent radius) and no query of the
run carries radius parameter 20000, contradicting the claim that each child
is searched with exactly half of the parent search radius. -/
theorem claim_C2_counterexample :
    ((YelpClient.find_places_in_bounding_box ⟨"k"⟩
        (fun p => if p.radius = 40000 then YelpClient.YelpResponse.ok 2000 []
                  else YelpClient.YelpResponse.ok 5 [1, 2]) 2
        ⟨0, 2, 0, 2⟩ 40000 0 [] []).2.any (fun e => e.is_split) = true)
    ∧ ((YelpClient.find_places_in_bounding_box ⟨"k"⟩
        (fun p => if p.radius = 40000 then YelpClient.YelpResponse.ok 2000 []
                  else YelpClient.YelpResponse.ok 5 [1, 2]) 2
        ⟨0, 2, 0, 2⟩ 40000 0 [] []).2.any (fun e =>
          match e with
          | YelpClient.YelpEvent.query p _ => decide (p.radius = 10000)
          | _ => false) = true)
    ∧ ((YelpClient.find_places_in_bounding_box ⟨"k"⟩
        (fun p => if p.radius = 40000 then YelpClient.YelpResponse.ok 2000 []
                  else YelpClient.YelpResponse.ok 5 [1, 2]) 2
        ⟨0, 2, 0, 2⟩ 40000 0 [] []).2.all (fun e =>
          match e with
          | YelpClient.YelpEvent.query p _ => !(decide (p.radius = 20000))
          | _ => true) = true) := by
  refine ⟨?_, ?_, ?_⟩ <;>
    norm_num [YelpClient.find_places_in_bounding_box, YelpClient.search_params,
      YelpClient.MAX_NUM_QUERY_RESULTS, YelpClient.MAX_NUM_PAGE_RESULTS,
      BoundingBox.split_along_axes, YelpClient.find_children,
      BoundingBox.center, YelpClient.YelpEvent.is_split, List.range_succ]

/-- C7: on a transport error for one cell, the error is recorded together
with the query parameters that produced it, the remaining pages of that
cell are abandoned while its already-retrieved records are returned, and
the per-cell loop continues with the remaining cells; a concrete two-cell
run shows the final PlacesSearchResult carrying the other cell records plus
the failing cell error entry. -/
theorem claim_C7_transport_error_isolation :
    (∀ (client : YelpClient.Client)
        (P : YelpClient.YelpParams → YelpClient.YelpResponse)
        (fuel : ℕ) (box : BoundingBox ℚ) (search_radius : ℚ) (page_idx : ℕ)
        (pois : List ℕ) (errors : List YelpClient.YelpError) (body : String),
      P (YelpClient.search_params box search_radius page_idx) =
        YelpClient.YelpResponse.err body →
      YelpClient.find_places_in_bounding_box client P (fuel+1) box search_radius
          page_idx pois errors =
        (some (pois, errors ++
           [⟨YelpClient.search_params box search_radius page_idx, body⟩]),
         [YelpClient.YelpEvent.query
           (YelpClient.search_params box search_radius page_idx)
           ("Bearer " ++ client.api_key)]))
    ∧ (∀ (geo : Boundary ℚ)
        (fp : BoundingBox ℚ → Option (List ℕ × List YelpClient.YelpError) × List YelpClient.YelpEvent)
        (cell : BoundingBox ℚ) (rest : List (BoundingBox ℚ))
        (pois ps : List ℕ) (errors es : List YelpClient.YelpError)
        (tr : List YelpClient.YelpEvent),
      cell.intersects_with geo = true → fp cell = (some (ps, es), tr) →
      YelpClient.process_cells geo fp (cell :: rest) pois errors =
        ((YelpClient.process_cells geo fp rest (pois ++ ps) (errors ++ es)).1,
         tr ++ (YelpClient.process_cells geo fp rest (pois ++ ps) (errors ++ es)).2))
    ∧ ((YelpClient.run_nearby_search ⟨"k"⟩
          (fun p => if p.longitude = 1/2 then YelpClient.YelpResponse.err "boom"
                    else YelpClient.YelpResponse.ok 5 [10, 20])
          1 (fun _ _ => (1, 1)) (fun pois _ => pois) 2 [⟨0, 2, 0, 1⟩]).1 =
        some ⟨[10, 20], [10, 20],
          [⟨YelpClient.search_params ⟨0, 1, 0, 1⟩ 40000 0, "boom"⟩]⟩) := by
  refine ⟨?_, ?_, ?_⟩
  · intro client P fuel box search_radius page_idx pois errors body h
    simp only [YelpClient.find_places_in_bounding_box, h]
  · intro geo fp cell rest pois ps errors es tr hI hf
    simp only [YelpClient.process_cells]
    rw [if_pos hI, hf]
  · norm_num [YelpClient.run_nearby_search, YelpClient.plan_cells,
      YelpClient.process_cells, YelpClient.find_places_in_bounding_box,
      YelpClient.search_params, YelpClient.MAX_NUM_QUERY_RESULTS,
      YelpClient.MAX_NUM_PAGE_RESULTS, YelpClient.MAX_SEARCH_RADIUS_IN_METERS,
      Boundary.bounds, BoundingBox.split_into_squares, BoundingBox.bottom_left,
      BoundingBox.intersects_with, BoundingBox.center, List.range_succ,
      min_def]

theorem claim_C7_witness :
    YelpClient.find_places_in_bounding_box ⟨"k"⟩
        (fun _ => YelpClient.YelpResponse.err "boom") 1 ⟨0, 2, 0, 2⟩ 40000 0 [] [] =
      (some ([], [⟨YelpClient.search_params ⟨0, 2, 0, 2⟩ 40000 0, "boom"⟩]),
       [YelpClient.YelpEvent.query (YelpClient.search_params ⟨0, 2, 0, 2⟩ 40000 0)
         ("Bearer " ++ "k")]) :=
  claim_C7_transport_error_isolation.1 ⟨"k"⟩ _ 0 ⟨0, 2, 0, 2⟩ 40000 0 [] [] "boom" rfl

/-- C5 (amended): initial grid cells that do not intersect the boundary are
never queried (processing a cell list is identical to processing only its
boundary-intersecting cells), but when a cell is subdivided the recursive
step performs no boundary check: all four children produced by
split_along_axes(2, 2) are searched regardless of whether they intersect
the boundary. -/
theorem claim_C5_boundary_filtering :
    (∀ (geo : Boundary ℚ)
        (fp : BoundingBox ℚ → Option (List ℕ × List YelpClient.YelpError) × List YelpClient.YelpEvent)
        (cells : List (BoundingBox ℚ)) (pois : List ℕ)
        (errors : List YelpClient.YelpError),
      YelpClient.process_cells geo fp cells pois errors =
        YelpClient.process_cells geo fp
          (cells.filter (fun c => c.intersects_with geo)) pois errors)
    ∧ (∀ (client : YelpClient.Client)
        (P : YelpClient.YelpParams → YelpClient.YelpResponse)
        (fuel : ℕ) (box : BoundingBox ℚ) (search_radius : ℚ) (page_idx : ℕ)
        (pois : List ℕ) (errors : List YelpClient.YelpError) (t : ℕ) (bs : List ℕ),
      P (YelpClient.search_params box search_radius page_idx) =
        YelpClient.YelpResponse.ok t bs →
      t > YelpClient.MAX_NUM_QUERY_RESULTS →
      (YelpClient.find_places_in_bounding_box client P (fuel+1) box search_radius
          page_idx pois errors).2 =
        YelpClient.YelpEvent.query
            (YelpClient.search_params box search_radius page_idx)
            ("Bearer " ++ client.api_key) ::
          YelpClient.YelpEvent.split box ::
          (YelpClient.find_children
            (fun sub => YelpClient.find_places_in_bounding_box client P fuel sub
              (search_radius / 4) 0 [] [])
            (box.split_along_axes 2 2) pois errors).2) := by
  constructor
  · intro geo fp cells
    induction cells with
    | nil =>
      intro pois errors
      rfl
    | cons cell rest ih =>
      intro pois errors
      by_cases hI : cell.intersects_with geo = true
      · have hsplit : List.filter (fun c => c.intersects_with geo) (cell :: rest) =
            cell :: List.filter (fun c => c.intersects_with geo) rest := by
          simp [List.filter_cons, hI]
        rw [hsplit]
        simp only [YelpClient.process_cells]
        rw [if_pos hI, if_pos hI]
        rcases hf : fp cell with ⟨o, tr⟩
        rcases o with _ | ⟨ps, es⟩
        · rfl
        · simp only []
          rw [ih (pois ++ ps) (errors ++ es)]
      · have hsplit : List.filter (fun c => c.intersects_with geo) (cell :: rest) =
            List.filter (fun c => c.intersects_with geo) rest := by
          simp [List.filter_cons, hI]
        rw [hsplit]
        simp only [YelpClient.process_cells]
        rw [if_neg hI]
        exact ih pois errors
  · intro client P fuel box search_radius page_idx pois errors t bs h ht
    simp only [YelpClient.find_places_in_bounding_box, h]
    rw [if_pos ht]

theorem claim_C5_witness :
    (YelpClient.find_places_in_bounding_box ⟨"k"⟩
        (fun _ => YelpClient.YelpResponse.ok 1001 []) 1 ⟨0, 2, 0, 2⟩ 40000 0 [] []).2 =
      YelpClient.YelpEvent.query (YelpClient.search_params ⟨0, 2, 0, 2⟩ 40000 0)
          ("Bearer " ++ "k") ::
        YelpClient.YelpEvent.split ⟨0, 2, 0, 2⟩ ::
        (YelpClient.find_children
          (fun sub => YelpClient.find_places_in_bounding_box ⟨"k"⟩
            (fun _ => YelpClient.YelpResponse.ok 1001 []) 0 sub (40000 / 4) 0 [] [])
          ((⟨0, 2, 0, 2⟩ : BoundingBox ℚ).split_along_axes 2 2) [] []).2 :=
  claim_C5_boundary_filtering.2 ⟨"k"⟩ _ 0 ⟨0, 2, 0, 2⟩ 40000 0 [] [] 1001 [] rfl
    (by norm_num [YelpClient.MAX_NUM_QUERY_RESULTS])

/-- C5 counterexample: a full run over a boundary made of two small
rectangles in opposite corners of its bounding box.  The single planned
cell intersects the boundary and is subdivided; the child cell
(1, 2) x (0, 1) shares no point with the boundary, yet the run issues a
query centered on that child (longitude 3/2, latitude 1/2), contradicting
the claim that children falling entirely outside the boundary are dropped
without being queried. -/
theorem claim_C5_counterexample :
    ((⟨1, 2, 0, 1⟩ : BoundingBox ℚ).intersects_with
       [⟨0, 1/10, 0, 1/10⟩, ⟨19/10, 2, 19/10, 2⟩] = false)
    ∧ ((YelpClient.run_nearby_search ⟨"k"⟩
        (fun p => if p.radius = 40000 then YelpClient.YelpResponse.ok 2000 []
                  else YelpClient.YelpResponse.ok 5 [1, 2])
        1 (fun _ _ => (2, 2)) (fun pois _ => pois) 2
        [⟨0, 1/10, 0, 1/10⟩, ⟨19/10, 2, 19/10, 2⟩]).2.any
        (fun e => e.is_split) = true)
    ∧ ((YelpClient.run_nearby_search ⟨"k"⟩
        (fun p => if p.radius = 40000 then YelpClient.YelpResponse.ok 2000 []
                  else YelpClient.YelpResponse.ok 5 [1, 2])
        1 (fun _ _ => (2, 2)) (fun pois _ => pois) 2
        [⟨0, 1/10, 0, 1/10⟩, ⟨19/10, 2, 19/10, 2⟩]).2.any
        (fun e =>
          match e with
          | YelpClient.YelpEvent.query p _ =>
            decide (p.longitude = 3/2) && decide (p.latitude = 1/2)
          | _ => false) = true) := by
  refine ⟨by norm_num [BoundingBox.intersects_with], ?_, ?_⟩ <;>
    norm_num [YelpClient.run_nearby_search, YelpClient.plan_cells,
      YelpClient.process_cells, YelpClient.find_places_in_bounding_box,
      YelpClient.find_children, YelpClient.search_params,
      YelpClient.MAX_NUM_QUERY_RESULTS, YelpClient.MAX_NUM_PAGE_RESULTS,
      YelpClient.MAX_SEARCH_RADIUS_IN_METERS, Boundary.bounds,
      BoundingBox.split_into_squares, BoundingBox.split_along_axes,
      BoundingBox.bottom_left, BoundingBox.intersects_with,
      BoundingBox.center, YelpClient.YelpEvent.is_split, List.range_succ,
      min_def]

/-- C6 (amended): for every cell whose provider consistently reports a
total t with 1 <= t <= MAX_NUM_QUERY_RESULTS, the engine retrieves the cell
records in MAX_NUM_PAGE_RESULTS-sized pages with the offset advancing by
the page size on each request, returns after the page holding the last of
the t records, and the trace interleaves exactly one half-second sleep
between successive page requests; for a reported total of zero the loop
never exits (the restriction to t of at least one is forced by the
counterexample). -/
theorem claim_C6_pagination (client : YelpClient.Client)
    (P : YelpClient.YelpParams → YelpClient.YelpResponse)
    (box : BoundingBox ℚ) (search_radius : ℚ) (t : ℕ) (bs : ℕ → List ℕ)
    (hc : ∀ k, P (YelpClient.search_params box search_radius k) =
      YelpClient.YelpResponse.ok t (bs k))
    (h1 : 1 ≤ t) (hcap : t ≤ YelpClient.MAX_NUM_QUERY_RESULTS) :
    ∀ fuel, YelpClient.num_pages t ≤ fuel →
      YelpClient.find_places_in_bounding_box client P fuel box search_radius 0 [] [] =
        (some (YelpClient.expected_pages bs 0 (YelpClient.num_pages t), []),
         YelpClient.expected_trace client box search_radius 0
           (YelpClient.num_pages t)) := by
  intro fuel hfuel
  have hN : 1 ≤ YelpClient.num_pages t := by
    simp only [YelpClient.num_pages, YelpClient.MAX_NUM_PAGE_RESULTS]
    by_cases h0 : t % 50 > 0
    · rw [if_pos h0]
      omega
    · rw [if_neg h0]
      omega
  have key := YelpClient.paginate_from client P box search_radius t bs hc hcap
    (YelpClient.num_pages t - 1) 0 [] [] fuel (by omega) (by omega)
  rw [key, show YelpClient.num_pages t - 1 + 1 = YelpClient.num_pages t from by omega]
  simp

theorem claim_C6_witness :
    (YelpClient.find_places_in_bounding_box ⟨"k"⟩
      (fun p => YelpClient.YelpResponse.ok 120 [p.offset / 50]) 3
      ⟨0, 2, 0, 2⟩ 40000 0 [] []).1 = some ([0, 1, 2], []) := by
  have h := claim_C6_pagination ⟨"k"⟩
    (fun p => YelpClient.YelpResponse.ok 120 [p.offset / 50])
    ⟨0, 2, 0, 2⟩ 40000 120 (fun k => [k])
    (fun k => by
      have hoff : (YelpClient.search_params ⟨0, 2, 0, 2⟩ 40000 k).offset = k * 50 := by
        simp [YelpClient.search_params, YelpClient.MAX_NUM_PAGE_RESULTS]
      show YelpClient.YelpResponse.ok 120
        [(YelpClient.search_params ⟨0, 2, 0, 2⟩ 40000 k).offset / 50] =
        YelpClient.YelpResponse.ok 120 [k]
      rw [hoff, show k * 50 / 50 = k from by omega])
    (by norm_num) (by norm_num [YelpClient.MAX_NUM_QUERY_RESULTS]) 3
    (by norm_num [YelpClient.num_pages, YelpClient.MAX_NUM_PAGE_RESULTS])
  rw [h]
  norm_num [show YelpClient.num_pages 120 = 3 from by
      norm_num [YelpClient.num_pages, YelpClient.MAX_NUM_PAGE_RESULTS],
    YelpClient.expected_pages]

/-- C6 counterexample: a cell whose provider reports a total of zero, which
is under the per-query cap; the claim then asserts the engine stops after
all zero records are retrieved, yet a run given fuel for five requests
issues five page queries for the cell and still reaches no return. -/
theorem claim_C6_counterexample :
    ((YelpClient.find_places_in_bounding_box ⟨"k"⟩
        (fun _ => YelpClient.YelpResponse.ok 0 []) 5
        ⟨0, 2, 0, 2⟩ 40000 0 [] []).1 = none)
    ∧ ((YelpClient.find_places_in_bounding_box ⟨"k"⟩
        (fun _ => YelpClient.YelpResponse.ok 0 []) 5
        ⟨0, 2, 0, 2⟩ 40000 0 [] []).2.countP (fun e => e.is_query) = 5) := by
  constructor <;>
    norm_num [YelpClient.find_places_in_bounding_box, YelpClient.search_params,
      YelpClient.MAX_NUM_QUERY_RESULTS, YelpClient.MAX_NUM_PAGE_RESULTS,
      YelpClient.YelpEvent.is_query, List.countP, List.countP.go]

theorem split_into_squares_mem_iff {α : Type} [LinearOrderedField α] [FloorRing α]
    (b : BoundingBox α) (s : α) (c : BoundingBox α) :
    c ∈ b.split_into_squares s ↔
      ∃ i j : ℕ, i < ⌈(b.max_x - b.min_x) / s⌉₊ ∧ j < ⌈(b.max_y - b.min_y) / s⌉₊ ∧
        c = ⟨b.min_x + (i : α) * s, min (b.min_x + ((i : α) + 1) * s) b.max_x,
             b.min_y + (j : α) * s, min (b.min_y + ((j : α) + 1) * s) b.max_y⟩ := by
  simp only [BoundingBox.split_into_squares]
  constructor
  · intro hmem
    rw [List.mem_flatten] at hmem
    obtain ⟨l, hl, hcl⟩ := hmem
    rw [List.mem_map] at hl
    obtain ⟨j, hjr, rfl⟩ := hl
    rw [List.mem_map] at hcl
    obtain ⟨i, hir, rfl⟩ := hcl
    rw [List.mem_range] at hjr hir
    exact ⟨i, j, hir, hjr, rfl⟩
  · rintro ⟨i, j, hi, hj, rfl⟩
    rw [List.mem_flatten]
    exact ⟨_, List.mem_map_of_mem _ (List.mem_range.mpr hj),
      List.mem_map_of_mem _ (List.mem_range.mpr hi)⟩

theorem tile_index_exists (lo hi x s : ℚ) (hs : 0 < s) (hlh : lo < hi)
    (hlo : lo ≤ x) (hhi : x ≤ hi) :
    ∃ i : ℕ, i < ⌈(hi - lo) / s⌉₊ ∧ lo + (i : ℚ) * s ≤ x ∧
      x ≤ min (lo + ((i : ℚ) + 1) * s) hi := by
  have hn1 : 0 < ⌈(hi - lo) / s⌉₊ := Nat.ceil_pos.mpr (div_pos (by linarith) hs)
  refine ⟨min ⌊(x - lo) / s⌋₊ (⌈(hi - lo) / s⌉₊ - 1), ?_, ?_, ?_⟩
  · exact lt_of_le_of_lt (min_le_right _ _) (by omega)
  · have h1 : ((min ⌊(x - lo) / s⌋₊ (⌈(hi - lo) / s⌉₊ - 1) : ℕ) : ℚ) ≤
        ((⌊(x - lo) / s⌋₊ : ℕ) : ℚ) := Nat.cast_le.mpr (min_le_left _ _)
    have h2 : ((⌊(x - lo) / s⌋₊ : ℕ) : ℚ) ≤ (x - lo) / s :=
      Nat.floor_le (div_nonneg (by linarith) hs.le)
    have h3 : ((min ⌊(x - lo) / s⌋₊ (⌈(hi - lo) / s⌉₊ - 1) : ℕ) : ℚ) * s ≤ x - lo := by
      rw [← le_div_iff₀ hs]
      linarith
    linarith
  · refine le_min ?_ hhi
    rcases le_or_lt (⌊(x - lo) / s⌋₊) (⌈(hi - lo) / s⌉₊ - 1) with hc | hc
    · rw [min_eq_left hc]
      have h4 := Nat.lt_floor_add_one ((x - lo) / s)
      rw [div_lt_iff₀ hs] at h4
      linarith
    · rw [min_eq_right hc.le]
      have h5 := Nat.le_ceil ((hi - lo) / s)
      rw [div_le_iff₀ hs] at h5
      have h7 : (((⌈(hi - lo) / s⌉₊ - 1 : ℕ) : ℚ) + 1) =
          ((⌈(hi - lo) / s⌉₊ : ℕ) : ℚ) := by
        exact_mod_cast Nat.sub_add_cancel (by omega : 1 ≤ ⌈(hi - lo) / s⌉₊)
      rw [h7]
      linarith

/-- C4: the partition planning of run_nearby_search computes the maximum
cell side in meters as the square root of two times the maximum search
radius, converts it to degrees at the bounding box bottom-left point (the
southernmost latitude), takes the smaller of the latitude-degree and
longitude-degree conversions as the side, and tiles the bounding box into
squares of that side: every planned cell has both side lengths at most the
chosen side, and the cells cover every point of the bounding box. -/
theorem claim_C4_partition_planning :
    (∀ (c2d : ℝ → Point ℝ → ℝ × ℝ) (bbox : BoundingBox ℝ),
      YelpClient.plan_cells (Real.sqrt 2) c2d bbox =
        bbox.split_into_squares
          (min (c2d (Real.sqrt 2 * (YelpClient.MAX_SEARCH_RADIUS_IN_METERS : ℝ))
                  bbox.bottom_left).1
               (c2d (Real.sqrt 2 * (YelpClient.MAX_SEARCH_RADIUS_IN_METERS : ℝ))
                  bbox.bottom_left).2)
        ∧ bbox.bottom_left = ⟨bbox.min_x, bbox.min_y⟩)
    ∧ (∀ (bbox : BoundingBox ℚ) (s : ℚ), 0 < s →
        bbox.min_x < bbox.max_x → bbox.min_y < bbox.max_y →
        (∀ c ∈ bbox.split_into_squares s,
          c.max_x - c.min_x ≤ s ∧ c.max_y - c.min_y ≤ s)
        ∧ (∀ p : Point ℚ, bbox.min_x ≤ p.lon → p.lon ≤ bbox.max_x →
            bbox.min_y ≤ p.lat → p.lat ≤ bbox.max_y →
            ∃ c ∈ bbox.split_into_squares s,
              c.min_x ≤ p.lon ∧ p.lon ≤ c.max_x ∧
              c.min_y ≤ p.lat ∧ p.lat ≤ c.max_y)) := by
  constructor
  · intro c2d bbox
    exact ⟨rfl, rfl⟩
  · intro bbox s hs hx hy
    constructor
    · intro c hc
      rw [split_into_squares_mem_iff] at hc
      obtain ⟨i, j, hi, hj, rfl⟩ := hc
      constructor
      · have h1 := min_le_left (bbox.min_x + ((i : ℚ) + 1) * s) bbox.max_x
        have h2 : (bbox.min_x + ((i : ℚ) + 1) * s) - (bbox.min_x + (i : ℚ) * s) = s := by
          ring
        dsimp only
        linarith
      · have h1 := min_le_left (bbox.min_y + ((j : ℚ) + 1) * s) bbox.max_y
        have h2 : (bbox.min_y + ((j : ℚ) + 1) * s) - (bbox.min_y + (j : ℚ) * s) = s := by
          ring
        dsimp only
        linarith
    · intro p hx1 hx2 hy1 hy2
      obtain ⟨i, hi, hxl, hxr⟩ :=
        tile_index_exists bbox.min_x bbox.max_x p.lon s hs hx hx1 hx2
      obtain ⟨j, hj, hyl, hyr⟩ :=
        tile_index_exists bbox.min_y bbox.max_y p.lat s hs hy hy1 hy2
      refine ⟨⟨bbox.min_x + (i : ℚ) * s, min (bbox.min_x + ((i : ℚ) + 1) * s) bbox.max_x,
               bbox.min_y + (j : ℚ) * s, min (bbox.min_y + ((j : ℚ) + 1) * s) bbox.max_y⟩,
              (split_into_squares_mem_iff _ _ _).mpr ⟨i, j, hi, hj, rfl⟩,
              hxl, hxr, hyl, hyr⟩

theorem claim_C4_witness :
    (0 : ℚ) < 2 ∧
    ∃ c ∈ (⟨0, 2, 0, 3⟩ : BoundingBox ℚ).split_into_squares 2,
      c.min_x ≤ 1 ∧ (1 : ℚ) ≤ c.max_x ∧ c.min_y ≤ 5/2 ∧ (5/2 : ℚ) ≤ c.max_y :=
  ⟨by norm_num,
   (claim_C4_partition_planning.2 ⟨0, 2, 0, 3⟩ 2 (by norm_num) (by norm_num)
     (by norm_num)).2 ⟨1, 5/2⟩ (by norm_num) (by norm_num) (by norm_num) (by norm_num)⟩
